import Mathlib

/-! learnmetal-tutorials: the `Application` and `Renderer` headers

Embedding of `creating-a-window-with-glfw/application.hpp` and
`drawing-a-triangle-on-the-screen/renderer.hpp`.

* Raw pointers are typed addresses (`Ptr T`), address `0` being the null pointer.
* A class is a structure with one field per data member, in declaration order.
* A member function is a state-passing function: it takes the object and returns its
  result together with the object after the call.  Only the two inline getters of
  `Renderer` have a body in the headers; every other member function, the constructors
  and both `Init` among them, is a declaration without a body.
-/

namespace LearnMetal

/-! ## Pointers -/

/-- Object types the two headers refer to through a raw pointer. -/
inductive Pointee where
  | MTL_Device
  | CAMetalLayer
  | NSWindow
  | MTL_Buffer
  | MTL_Library
  | MTL_CommandQueue
  | MTL_RenderPipelineState
  | CA_MetalDrawable
  | MTL_CommandBuffer
  | GLFWwindow
  | constChar
  deriving DecidableEq, Repr

/-- Raw pointer `T*`: an address, `0` for the null pointer. -/
structure Ptr (T : Pointee) where
  addr : Nat
  deriving DecidableEq, Repr

/-- The null pointer of type `T*`. -/
def Ptr.null {T : Pointee} : Ptr T := ⟨0⟩

/-- Test `p == nullptr`. -/
def Ptr.isNull {T : Pointee} (p : Ptr T) : Bool := p.addr == 0

/-! ## Data members -/

/-- Data members of `class Renderer` (renderer.hpp, lines 35-46). -/
structure Renderer where
  m_MetalDevice : Ptr Pointee.MTL_Device
  m_MetalLayer : Ptr Pointee.CAMetalLayer
  m_MetalWindow : Ptr Pointee.NSWindow
  m_TriangleVertexBuffer : Ptr Pointee.MTL_Buffer
  m_MetalDefaultLibrary : Ptr Pointee.MTL_Library
  m_MetalCommandQueue : Ptr Pointee.MTL_CommandQueue
  m_MetalRenderPSO : Ptr Pointee.MTL_RenderPipelineState
  m_MetalDrawable : Ptr Pointee.CA_MetalDrawable
  m_MetalCommandBuffer : Ptr Pointee.MTL_CommandBuffer
  deriving DecidableEq, Repr

/-- Data members of `class Application` (application.hpp, lines 42-53). -/
structure Application where
  m_MetalDevice : Ptr Pointee.MTL_Device
  m_GlfwWindow : Ptr Pointee.GLFWwindow
  m_Width : Int
  m_Height : Int
  m_Title : Ptr Pointee.constChar
  m_MetalWindow : Ptr Pointee.NSWindow
  m_MetalLayer : Ptr Pointee.CAMetalLayer
  deriving DecidableEq, Repr

/-! ## Member functions with a body -/

/-- The getter `inline MTL::Device* getMetalDevice() { return m_MetalDevice; }`:
the returned pointer and the object after the call. -/
def Renderer.getMetalDevice (self : Renderer) : Ptr Pointee.MTL_Device × Renderer :=
  (self.m_MetalDevice, self)

/-- The getter `inline CAMetalLayer* getMetalLayer() { return m_MetalLayer; }`:
the returned pointer and the object after the call. -/
def Renderer.getMetalLayer (self : Renderer) : Ptr Pointee.CAMetalLayer × Renderer :=
  (self.m_MetalLayer, self)

/-! ## Sequences of getter calls -/

/-- One call of a getter of `Renderer`. -/
inductive GetterCall where
  | getMetalDevice
  | getMetalLayer
  deriving DecidableEq, Repr

/-- What a getter call hands back to the caller. -/
inductive GetterResult where
  | device (p : Ptr Pointee.MTL_Device)
  | layer (p : Ptr Pointee.CAMetalLayer)
  deriving DecidableEq, Repr

/-- Perform one getter call on the object. -/
def GetterCall.run (c : GetterCall) (self : Renderer) : GetterResult × Renderer :=
  match c with
  | GetterCall.getMetalDevice => (GetterResult.device self.getMetalDevice.1, self.getMetalDevice.2)
  | GetterCall.getMetalLayer => (GetterResult.layer self.getMetalLayer.1, self.getMetalLayer.2)

/-- Perform the calls of `cs` one after the other, each on the object the previous call left
behind; the results in call order, and the object after the last call. -/
def runGetters : List GetterCall → Renderer → List GetterResult × Renderer
  | [], self => ([], self)
  | c :: cs, self =>
    let step := c.run self
    let rest := runGetters cs step.2
    (step.1 :: rest.1, rest.2)

/-! ## Construction of the renderer -/

/-- Modelled from the spec: the body of the constructor `Renderer::Renderer(NSWindow* window)`
is not part of the headers.  The spec says that the renderer is constructed from the
application's native window handle and holds that borrowed pointer; it says nothing about the
other eight members, which therefore keep whatever the object's storage held (`storage`). -/
def Renderer.ctor (storage : Renderer) (window : Ptr Pointee.NSWindow) : Renderer :=
  { storage with m_MetalWindow := window }

/-! ## Helper lemmas -/

/-- A getter call leaves the object as it found it. -/
theorem GetterCall.run_snd (c : GetterCall) (self : Renderer) : (c.run self).2 = self := by
  cases c <;> rfl

/-- A sequence of getter calls leaves the object as it found it. -/
theorem runGetters_snd (cs : List GetterCall) (self : Renderer) :
    (runGetters cs self).2 = self := by
  induction cs generalizing self with
  | nil => rfl
  | cons c cs ih =>
    show (runGetters cs (c.run self).2).2 = self
    rw [ih, GetterCall.run_snd]

/-- Every call of a sequence returns what that getter returns on the initial object. -/
theorem runGetters_fst (cs : List GetterCall) (self : Renderer) :
    (runGetters cs self).1 = cs.map (fun c => (c.run self).1) := by
  induction cs generalizing self with
  | nil => rfl
  | cons c cs ih =>
    show (c.run self).1 :: (runGetters cs (c.run self).2).1 = _
    rw [GetterCall.run_snd, ih, List.map_cons]

/-! ## The claims -/

/-- C3: the renderer constructed from a window handle holds exactly that handle in
`m_MetalWindow`, whatever its storage held before; in particular a renderer constructed from an
application's `m_MetalWindow` holds the application's native window handle. -/
theorem ctor_holds_window (storage : Renderer) (w : Ptr Pointee.NSWindow) :
    (Renderer.ctor storage w).m_MetalWindow = w
    ∧ ∀ app : Application,
        (Renderer.ctor storage app.m_MetalWindow).m_MetalWindow = app.m_MetalWindow :=
  ⟨rfl, fun _ => rfl⟩

/-- C4: `getMetalDevice()` returns the value of `m_MetalDevice`; the result stays that value
whatever the other eight members hold, and it is the null pointer when `m_MetalDevice` is
null. -/
theorem getMetalDevice_returns_field (r : Renderer) :
    r.getMetalDevice.1 = r.m_MetalDevice
    ∧ (∀ (layer : Ptr Pointee.CAMetalLayer) (window : Ptr Pointee.NSWindow)
        (buffer : Ptr Pointee.MTL_Buffer) (library : Ptr Pointee.MTL_Library)
        (queue : Ptr Pointee.MTL_CommandQueue) (pso : Ptr Pointee.MTL_RenderPipelineState)
        (drawable : Ptr Pointee.CA_MetalDrawable) (commands : Ptr Pointee.MTL_CommandBuffer),
        (Renderer.getMetalDevice
          ⟨r.m_MetalDevice, layer, window, buffer, library, queue, pso, drawable, commands⟩).1
          = r.m_MetalDevice
        ∧ (Renderer.getMetalDevice
          ⟨Ptr.null, layer, window, buffer, library, queue, pso, drawable, commands⟩).1
          = Ptr.null) :=
  ⟨rfl, fun _ _ _ _ _ _ _ _ => ⟨rfl, rfl⟩⟩

/-- C5: `getMetalLayer()` returns the value of `m_MetalLayer`; the result stays that value
whatever the other eight members hold, and it is the null pointer when `m_MetalLayer` is
null. -/
theorem getMetalLayer_returns_field (r : Renderer) :
    r.getMetalLayer.1 = r.m_MetalLayer
    ∧ (∀ (device : Ptr Pointee.MTL_Device) (window : Ptr Pointee.NSWindow)
        (buffer : Ptr Pointee.MTL_Buffer) (library : Ptr Pointee.MTL_Library)
        (queue : Ptr Pointee.MTL_CommandQueue) (pso : Ptr Pointee.MTL_RenderPipelineState)
        (drawable : Ptr Pointee.CA_MetalDrawable) (commands : Ptr Pointee.MTL_CommandBuffer),
        (Renderer.getMetalLayer
          ⟨device, r.m_MetalLayer, window, buffer, library, queue, pso, drawable, commands⟩).1
          = r.m_MetalLayer
        ∧ (Renderer.getMetalLayer
          ⟨device, Ptr.null, window, buffer, library, queue, pso, drawable, commands⟩).1
          = Ptr.null) :=
  ⟨rfl, fun _ _ _ _ _ _ _ _ => ⟨rfl, rfl⟩⟩

/-- C6: the getters are read-only.  Each of `getMetalDevice` and `getMetalLayer` leaves the
object, and so each of its nine members, as it was; and in any sequence of getter calls every
call returns what that getter returns on the initial object, the object after the sequence
being the initial one. -/
theorem getters_read_only (r : Renderer) :
    r.getMetalDevice.2 = r
    ∧ r.getMetalLayer.2 = r
    ∧ (∀ c : GetterCall,
        (c.run r).2.m_MetalDevice = r.m_MetalDevice
        ∧ (c.run r).2.m_MetalLayer = r.m_MetalLayer
        ∧ (c.run r).2.m_MetalWindow = r.m_MetalWindow
        ∧ (c.run r).2.m_TriangleVertexBuffer = r.m_TriangleVertexBuffer
        ∧ (c.run r).2.m_MetalDefaultLibrary = r.m_MetalDefaultLibrary
        ∧ (c.run r).2.m_MetalCommandQueue = r.m_MetalCommandQueue
        ∧ (c.run r).2.m_MetalRenderPSO = r.m_MetalRenderPSO
        ∧ (c.run r).2.m_MetalDrawable = r.m_MetalDrawable
        ∧ (c.run r).2.m_MetalCommandBuffer = r.m_MetalCommandBuffer)
    ∧ (∀ cs : List GetterCall,
        runGetters cs r = (cs.map (fun c => (c.run r).1), r)) := by
  refine ⟨rfl, rfl, ?_, ?_⟩
  · intro c
    rw [GetterCall.run_snd]
    exact ⟨rfl, rfl, rfl, rfl, rfl, rfl, rfl, rfl, rfl⟩
  · intro cs
    exact Prod.ext (runGetters_fst cs r) (runGetters_snd cs r)

end LearnMetal
